import Mathlib

/-!
# TUN/TAP device setup on Linux (`syscalls_linux.go`)

A shallow embedding of `src/syscalls_linux.go`.  The kernel is an oracle
(`Kernel`) that decides the outcome of every system call; the process is a
`World` holding the set of open descriptors and the log of system calls issued
so far.  Go byte values are naturals, `uint16`/`uint32` values are naturals
reduced modulo `2^16`/`2^32`, Go `int` values are integers.  Memory images are
little-endian (the byte order of the Linux targets the package builds for).
-/

namespace Water

/-! ## Bytes and memory images -/

/-- A Go byte slice or string, one natural per byte. -/
abbrev Bytes := List Nat

/-- Go's builtin `copy(dst, src)`: the first `min (len dst) (len src)` bytes of
`src` overwrite the start of `dst`; the result is the new content of `dst`. -/
def goCopy (dst src : Bytes) : Bytes :=
  src.take dst.length ++ dst.drop src.length

/-- A zeroed Go array `[n]byte`. -/
def zeroBytes (n : Nat) : Bytes := List.replicate n 0

/-- The content of a fixed-size array of `n` bytes read back from a memory
image: a system call cannot change the size of the array. -/
def fitLen (n : Nat) (b : Bytes) : Bytes := (b ++ zeroBytes n).take n

/-- Memory image of a `uint16`. -/
def le16 (v : Nat) : Bytes := [v % 256, v / 256 % 256]

/-- Memory image of a `uint32`. -/
def le32 (v : Nat) : Bytes :=
  [v % 256, v / 256 % 256, v / 65536 % 256, v / 16777216 % 256]

/-- The `uint32` read at byte offset `off` of a buffer. -/
def readU32 (buf : Bytes) (off : Nat) : Nat :=
  buf.getD off 0 + 256 * buf.getD (off + 1) 0 + 65536 * buf.getD (off + 2) 0
    + 16777216 * buf.getD (off + 3) 0

/-- The `uint16` read at byte offset `off` of a buffer. -/
def readU16 (buf : Bytes) (off : Nat) : Nat :=
  buf.getD off 0 + 256 * buf.getD (off + 1) 0

/-- Storing the bytes `bs` at byte offset `off` of a buffer (`*(*T)(&buf[off]) = v`). -/
def poke (buf : Bytes) (off : Nat) (bs : Bytes) : Bytes :=
  buf.take off ++ bs ++ buf.drop (off + bs.length)

/-- Go conversion `uint32(n)` of an `int`. -/
def uint32 (n : Int) : Nat := (n % 4294967296).toNat

/-- Go conversion `int(int32 value)` of a 32-bit pattern. -/
def int32 (v : Nat) : Int :=
  if v % 4294967296 < 2147483648 then ((v % 4294967296 : Nat) : Int)
  else ((v % 4294967296 : Nat) : Int) - 4294967296

/-- `strings.TrimLeft` on a one-byte cutset (`trimLeftByte`). -/
def trimLeftByte (s : Bytes) (c : Nat) : Bytes := s.dropWhile (fun b => b == c)

/-- `strings.TrimRight` on a one-byte cutset (`trimRightByte`). -/
def trimRightByte (s : Bytes) (c : Nat) : Bytes := s.rdropWhile (fun b => b == c)

/-- `strings.Trim(s, "\x00")`: a one-byte ASCII cutset trims that byte from the
right end, then from the left end. -/
def trimNul (s : Bytes) : Bytes := trimLeftByte (trimRightByte s 0) 0

/-! ## Constants -/

def cIFFTUN : Nat := 0x0001
def cIFFTAP : Nat := 0x0002
def cIFFNOPI : Nat := 0x1000
def cIFFMULTIQUEUE : Nat := 0x0100

/-- The constant `unix.IFNAMSIZ` of Linux. -/
def IFNAMSIZ : Nat := 16

/-- The control requests the file issues, by name. -/
inductive Req
  | TUNSETIFF
  | TUNSETOWNER
  | TUNSETGROUP
  | TUNSETPERSIST
  | SIOCGIFMTU
  | SIOCSIFMTU
  deriving DecidableEq, Repr

/-! ## `ifReq` -/

/-- The struct `ifReq`: `Name [0x10]byte`, `Flags uint16`, `pad [0x28-0x10-2]byte`. -/
structure ifReq where
  Name : Bytes
  Flags : Nat
  pad : Bytes
  deriving DecidableEq, Repr

/-- The zero value `var req ifReq`. -/
def ifReq.zero : ifReq :=
  { Name := zeroBytes 0x10, Flags := 0, pad := zeroBytes (0x28 - 0x10 - 2) }

/-- The memory image of an `ifReq`, which is what `unsafe.Pointer(&req)` hands
to the kernel: the fields in order (`Flags` sits at the even offset 16, so the
struct has no hidden padding). -/
def ifReq.bytes (r : ifReq) : Bytes := r.Name ++ le16 (r.Flags % 65536) ++ r.pad

/-- The struct read back from its memory image after a system call. -/
def ifReq.ofBytes (img : Bytes) : ifReq :=
  let m := fitLen 0x28 img
  { Name := m.take 0x10, Flags := readU16 m 0x10, pad := m.drop (0x10 + 2) }

/-! ## The process and the kernel -/

/-- A Go `error` value produced by this file. -/
inductive GoError
  /-- A `syscall.Errno` returned as is (`syscall.Open`, `unix.Socket`). -/
  | errno (e : Nat)
  /-- The value `os.NewSyscallError(call, errno)`. -/
  | syscallError (call : String) (e : Nat)
  /-- The value `errors.New("failed to set MTU of TUN device")`. -/
  | setMTUFailed
  /-- The value `errors.New("failed to get MTU of TUN device: " + errno.Error())`. -/
  | getMTUFailed (e : Nat)
  deriving DecidableEq, Repr

/-- The third argument of an `ioctl`: a plain value, or a pointer, given by the
memory it points to. -/
inductive Arg
  | val (v : Nat)
  | mem (b : Bytes)
  deriving DecidableEq, Repr

/-- A system call as issued by the process. -/
inductive Sys
  | openTun
  | socket
  | close (fd : Nat)
  | ioctl (fd : Nat) (request : Req) (argp : Arg)
  deriving DecidableEq, Repr

/-- The kernel as an oracle: the outcome of each system call.  `sysOpen` and
`sysSocket` give an errno (`Sum.inl`) or a new descriptor (`Sum.inr`);
`sysIoctl` gives the errno (0 for success) and the memory behind the argument
pointer after the call. -/
structure Kernel where
  sysOpen : Sum Nat Nat
  sysSocket : Sum Nat Nat
  sysIoctl : Nat → Req → Arg → Nat × Bytes

/-- The process state: descriptors currently open, and the system calls issued
so far, oldest first. -/
structure World where
  fds : List Nat
  log : List Sys
  deriving DecidableEq, Repr

/-- Records a system call in the log. -/
def World.emit (w : World) (s : Sys) : World := { w with log := w.log ++ [s] }

/-- A descriptor handed out by the kernel becomes open. -/
def World.opened (w : World) (fd : Nat) : World := { w with fds := fd :: w.fds }

/-- The system call `close(fd)`. -/
def World.close (w : World) (fd : Nat) : World :=
  { fds := w.fds.erase fd, log := w.log ++ [Sys.close fd] }

/-- The function `ioctl(fd, request, argp)`: the error, and the memory behind
`argp` after the call. -/
def ioctl (k : Kernel) (w : World) (fd : Nat) (request : Req) (argp : Arg) :
    Option GoError × Bytes × World :=
  let r := k.sysIoctl fd request argp
  let w1 := w.emit (Sys.ioctl fd request argp)
  if r.1 ≠ 0 then (some (GoError.syscallError "ioctl" r.1), r.2, w1)
  else (none, r.2, w1)

/-! ## Configuration -/

/-- Modelled from the spec: the type `DevicePermissions` is declared outside the
given sources; an owner id and a group id. -/
structure DevicePermissions where
  Owner : Nat
  Group : Nat
  deriving DecidableEq, Repr

/-- Modelled from the spec: the type `PlatformSpecificParams` is declared
outside the given sources; the source reads its field `MultiQueue`. -/
structure PlatformSpecificParams where
  MultiQueue : Bool
  deriving DecidableEq, Repr

/-- Modelled from the spec: the type `Config` is declared outside the given
sources; these are the fields the source reads (`Permissions` is a pointer,
`none` standing for `nil`). -/
structure Config where
  Name : Bytes
  MTU : Int
  Persist : Bool
  Permissions : Option DevicePermissions
  PlatformSpecificParams : PlatformSpecificParams
  deriving DecidableEq, Repr

/-! ## Device setup -/

/-- The request `createInterface` builds before the `TUNSETIFF` call. -/
def createInterfaceReq (ifName : Bytes) (flags : Nat) : ifReq :=
  let req := ifReq.zero
  let req := { req with Flags := flags }
  { req with Name := goCopy req.Name ifName }

/-- The function `createInterface(fd, ifName, flags)`. -/
def createInterface (k : Kernel) (w : World) (fd : Nat) (ifName : Bytes) (flags : Nat) :
    Except GoError Bytes × World :=
  let req := createInterfaceReq ifName flags
  let r := ioctl k w fd Req.TUNSETIFF (Arg.mem req.bytes)
  match r.1 with
  | some err => (Except.error err, r.2.2)
  | none =>
    let req := ifReq.ofBytes r.2.1
    (Except.ok (trimNul req.Name), r.2.2)

/-- The function `setDeviceOptions(fd, config)`. -/
def setDeviceOptions (k : Kernel) (w : World) (fd : Nat) (config : Config) :
    Option GoError × World :=
  let persist (w : World) : Option GoError × World :=
    let value := if config.Persist then 1 else 0
    let r := ioctl k w fd Req.TUNSETPERSIST (Arg.val value)
    (r.1, r.2.2)
  match config.Permissions with
  | some p =>
    let r := ioctl k w fd Req.TUNSETOWNER (Arg.val p.Owner)
    match r.1 with
    | some err => (some err, r.2.2)
    | none =>
      let r := ioctl k r.2.2 fd Req.TUNSETGROUP (Arg.val p.Group)
      match r.1 with
      | some err => (some err, r.2.2)
      | none => persist r.2.2
  | none => persist w

/-- The buffer `setMTU` hands to `SIOCSIFMTU`. -/
def setMTUReq (n : Int) (name : Bytes) : Bytes :=
  let ifr := zeroBytes (IFNAMSIZ + 64)
  let ifr := goCopy ifr name
  poke ifr IFNAMSIZ (le32 (uint32 n))

/-- The function `setMTU(n, name)`. -/
def setMTU (k : Kernel) (w : World) (n : Int) (name : Bytes) : Option GoError × World :=
  match k.sysSocket with
  | Sum.inl e => (some (GoError.errno e), w.emit Sys.socket)
  | Sum.inr fd =>
    let w := (w.emit Sys.socket).opened fd
    let ifr := setMTUReq n name
    let r := k.sysIoctl fd Req.SIOCSIFMTU (Arg.mem ifr)
    let w := w.emit (Sys.ioctl fd Req.SIOCSIFMTU (Arg.mem ifr))
    -- the deferred unix.Close(fd) runs on both returns
    if r.1 ≠ 0 then (some GoError.setMTUFailed, w.close fd)
    else (none, w.close fd)

/-- The buffer `mtu` hands to `SIOCGIFMTU`. -/
def mtuReq (name : Bytes) : Bytes :=
  goCopy (zeroBytes (IFNAMSIZ + 64)) name

/-- The value `mtu` decodes from the buffer after the call. -/
def mtuDecode (ifr : Bytes) : Int := int32 (readU32 ifr IFNAMSIZ)

/-- The function `mtu(name)`. -/
def mtu (k : Kernel) (w : World) (name : Bytes) : Except GoError Int × World :=
  match k.sysSocket with
  | Sum.inl e => (Except.error (GoError.errno e), w.emit Sys.socket)
  | Sum.inr fd =>
    let w := (w.emit Sys.socket).opened fd
    let ifr := mtuReq name
    let r := k.sysIoctl fd Req.SIOCGIFMTU (Arg.mem ifr)
    let w := w.emit (Sys.ioctl fd Req.SIOCGIFMTU (Arg.mem ifr))
    if r.1 ≠ 0 then (Except.error (GoError.getMTUFailed r.1), w.close fd)
    else (Except.ok (mtuDecode (fitLen (IFNAMSIZ + 64) r.2)), w.close fd)

/-- Modelled from the spec: the type `Interface` is declared outside the given
sources; the fields `newTAP` and `newTUN` fill in.  `file` is the descriptor
wrapped by `os.NewFile`, `events` the content of the buffered event queue. -/
structure Interface where
  isTAP : Bool
  file : Nat
  name : Bytes
  events : List Int
  deriving DecidableEq, Repr

/-- The flag value `newTAP` computes and passes to `createInterface`. -/
def newTAPFlags (config : Config) : Nat :=
  let flags := cIFFTAP ||| cIFFNOPI
  if config.PlatformSpecificParams.MultiQueue then flags ||| cIFFMULTIQUEUE else flags

/-- The flag value `newTUN` computes and passes to `createInterface`. -/
def newTUNFlags (config : Config) : Nat :=
  let flags := cIFFTUN ||| cIFFNOPI
  if config.PlatformSpecificParams.MultiQueue then flags ||| cIFFMULTIQUEUE else flags

/-- The function `newTAP(config)`, up to the start of the event watcher. -/
def newTAP (k : Kernel) (w : World) (config : Config) : Except GoError Interface × World :=
  match k.sysOpen with
  | Sum.inl e => (Except.error (GoError.errno e), w.emit Sys.openTun)
  | Sum.inr fd =>
    let w := (w.emit Sys.openTun).opened fd
    let flags := newTAPFlags config
    match createInterface k w fd config.Name flags with
    | (Except.error err, w) => (Except.error err, w)
    | (Except.ok name, w) =>
      match setDeviceOptions k w fd config with
      | (some err, w) => (Except.error err, w)
      | (none, w) =>
        -- f := os.NewFile(fd, "tun")
        match setMTU k w config.MTU name with
        | (some err, w) => (Except.error err, w.close fd)
        | (none, w) =>
          (Except.ok { isTAP := true, file := fd, name := name, events := [] }, w)

/-- The function `newTUN(config)`, up to the start of the event watcher. -/
def newTUN (k : Kernel) (w : World) (config : Config) : Except GoError Interface × World :=
  match k.sysOpen with
  | Sum.inl e => (Except.error (GoError.errno e), w.emit Sys.openTun)
  | Sum.inr fd =>
    let w := (w.emit Sys.openTun).opened fd
    let flags := newTUNFlags config
    match createInterface k w fd config.Name flags with
    | (Except.error err, w) => (Except.error err, w)
    | (Except.ok name, w) =>
      match setDeviceOptions k w fd config with
      | (some err, w) => (Except.error err, w)
      | (none, w) =>
        -- f := os.NewFile(fd, "tun")
        match setMTU k w config.MTU name with
        | (some err, w) => (Except.error err, w.close fd)
        | (none, w) =>
          (Except.ok { isTAP := false, file := fd, name := name, events := [] }, w)

/-! ## The event watcher

The goroutine started by `newTAP` and `newTUN`.  It captures `config` and
`name`.  The event type `tun.TUNEvent` is an `int`; the value of the constant
`tun.TUNEventMTUUpdate` belongs to the imported package and is a parameter
(`evMTU`) here. -/

/-- How a statement ends: by running to its end, or by a `break`. -/
inductive Ctl
  | next
  | brk
  deriving DecidableEq, Repr

/-- The state of the goroutine. -/
inductive Watcher
  | running
  | stopped
  deriving DecidableEq, Repr

/-- What a receive `<-events` delivers: the event sent, or the zero value when
the queue has been closed (`none`). -/
def chanRecv (x : Option Int) : Int := x.getD 0

/-- The `select` statement of the watcher, on the event `ev` it received. -/
def watcherSelect (k : Kernel) (w : World) (evMTU : Int) (config : Config) (name : Bytes)
    (ev : Int) : Ctl × World :=
  if ev = 0 then (Ctl.brk, w)
  else if ev = evMTU then (Ctl.next, (setMTU k w config.MTU name).2)
  else (Ctl.next, w)

/-- One turn of the watcher loop `for { select { ... } }`.  A `break` ends the
innermost `for`, `switch` or `select` statement, here the `select`; the `for`
has neither a condition nor a `break` of its own, so the loop goes on either
way. -/
def watcherStep (k : Kernel) (w : World) (evMTU : Int) (config : Config) (name : Bytes)
    (x : Option Int) : Watcher × World :=
  match watcherSelect k w evMTU config name (chanRecv x) with
  | (Ctl.brk, w) => (Watcher.running, w)
  | (Ctl.next, w) => (Watcher.running, w)

/-- The watcher run over a sequence of receives, each with the kernel's
behaviour at that moment; a stopped watcher consumes nothing. -/
def watcherRun (evMTU : Int) (config : Config) (name : Bytes) :
    Watcher × World → List (Kernel × Option Int) → Watcher × World
  | s, [] => s
  | (Watcher.stopped, w), _ => (Watcher.stopped, w)
  | (Watcher.running, w), (k, x) :: rest =>
    watcherRun evMTU config name (watcherStep k w evMTU config name x) rest

/-! ## Example kernels -/

/-- The name `tun0`. -/
def tun0 : Bytes := [116, 117, 110, 48]

/-- A kernel for the examples.  `open` gives descriptor 3 and `socket`
descriptor 4; a request for which `deny` holds fails with errno 1 and leaves the
memory alone; `TUNSETIFF` with an empty name field writes the name `tun0` into
it; `SIOCGIFMTU` writes the 32-bit value `cur` at offset 16; every other request
succeeds and leaves the memory as it was. -/
def exampleKernel (cur : Int) (deny : Req → Bool) : Kernel where
  sysOpen := Sum.inr 3
  sysSocket := Sum.inr 4
  sysIoctl := fun _ r a =>
    match a with
    | Arg.val _ => (if deny r then 1 else 0, [])
    | Arg.mem b =>
      if deny r then (1, b)
      else match r with
        | Req.TUNSETIFF => (0, if b.headD 0 = 0 then tun0 ++ b.drop 4 else b)
        | Req.SIOCGIFMTU => (0, poke b 16 (le32 (uint32 cur)))
        | _ => (0, b)

/-- No request is denied. -/
def allowAll : Req → Bool := fun _ => false

/-- Exactly the request `r` is denied. -/
def denyOnly (r : Req) : Req → Bool := fun q => decide (q = r)

/-- A process with the three standard descriptors open and nothing logged. -/
def startWorld : World := { fds := [0, 1, 2], log := [] }

/-- A configuration with all options at their defaults: no name, MTU 1500. -/
def defaultConfig : Config :=
  { Name := [], MTU := 1500, Persist := false, Permissions := none,
    PlatformSpecificParams := { MultiQueue := false } }

/-- A kernel that grants every request and never touches the memory behind an
argument: `open` gives descriptor 3 and `socket` descriptor 4. -/
def silentKernel : Kernel where
  sysOpen := Sum.inr 3
  sysSocket := Sum.inr 4
  sysIoctl := fun _ _ a =>
    match a with
    | Arg.val _ => (0, [])
    | Arg.mem b => (0, b)

/-! ## Auxiliary definitions for the proofs -/

/-- The common body of `newTAP` and `newTUN`, which differ only in the flag
value and in the `isTAP` tag; used to reason about both at once. -/
def newDev (isTAP : Bool) (flags : Nat) (k : Kernel) (w : World) (config : Config) :
    Except GoError Interface × World :=
  match k.sysOpen with
  | Sum.inl e => (Except.error (GoError.errno e), w.emit Sys.openTun)
  | Sum.inr fd =>
    let w := (w.emit Sys.openTun).opened fd
    match createInterface k w fd config.Name flags with
    | (Except.error err, w) => (Except.error err, w)
    | (Except.ok name, w) =>
      match setDeviceOptions k w fd config with
      | (some err, w) => (Except.error err, w)
      | (none, w) =>
        match setMTU k w config.MTU name with
        | (some err, w) => (Except.error err, w.close fd)
        | (none, w) =>
          (Except.ok { isTAP := isTAP, file := fd, name := name, events := [] }, w)

/-- The errno of the set-interface call `createInterface` issues. -/
def setIffErrno (k : Kernel) (fd : Nat) (ifName : Bytes) (flags : Nat) : Nat :=
  (k.sysIoctl fd Req.TUNSETIFF (Arg.mem (createInterfaceReq ifName flags).bytes)).1

/-- The name field of the request as the kernel left it after the
set-interface call `createInterface` issues. -/
def setIffName (k : Kernel) (fd : Nat) (ifName : Bytes) (flags : Nat) : Bytes :=
  (ifReq.ofBytes
    (k.sysIoctl fd Req.TUNSETIFF (Arg.mem (createInterfaceReq ifName flags).bytes)).2).Name

/-- The MTU of the interface after the logged system calls, when it was `cur`
before them and every set-MTU request in the log was granted: each such request
replaces the MTU by the 32-bit value it carries at offset `IFNAMSIZ`, read the
way `mtu` reads it. -/
def appliedMTU (cur : Int) : List Sys → Int
  | [] => cur
  | Sys.ioctl _ Req.SIOCSIFMTU (Arg.mem ifr) :: rest => appliedMTU (mtuDecode ifr) rest
  | _ :: rest => appliedMTU cur rest

/-- The contract of the Linux tun driver for `TUNSETIFF`: a granted request
leaves the name of the device it assigned, which is never empty, in the name
field of the request, so that field holds a byte other than NUL. -/
def namesDevice (k : Kernel) : Prop :=
  ∀ (fd : Nat) (b : Bytes), (k.sysIoctl fd Req.TUNSETIFF (Arg.mem b)).1 = 0 →
    ∃ x ∈ (ifReq.ofBytes (k.sysIoctl fd Req.TUNSETIFF (Arg.mem b)).2).Name, x ≠ 0

/-! ## Flag values -/

/-- The two flag values `newTAP` can compute. -/
theorem newTAPFlags_eq (config : Config) :
    newTAPFlags config = if config.PlatformSpecificParams.MultiQueue then 0x1102 else 0x1002 := by
  unfold newTAPFlags
  cases config.PlatformSpecificParams.MultiQueue <;> decide

/-- The two flag values `newTUN` can compute. -/
theorem newTUNFlags_eq (config : Config) :
    newTUNFlags config = if config.PlatformSpecificParams.MultiQueue then 0x1101 else 0x1001 := by
  unfold newTUNFlags
  cases config.PlatformSpecificParams.MultiQueue <;> decide

/-- A bit of a number below `2^13` sits below position 13. -/
theorem testBit_small {x i : Nat} (hx : x < 2 ^ 13) (h : x.testBit i = true) : i < 13 := by
  by_contra hi
  have hle : 2 ^ 13 ≤ 2 ^ i := Nat.pow_le_pow_right (by decide) (by omega)
  have := Nat.testBit_lt_two_pow (lt_of_lt_of_le hx hle)
  simp [this] at h

/-! ## System calls -/

/-- Every `ioctl` is logged, whatever its outcome, and changes nothing else. -/
theorem ioctl_world (k : Kernel) (w : World) (fd : Nat) (r : Req) (a : Arg) :
    (ioctl k w fd r a).2.2 = w.emit (Sys.ioctl fd r a) := by
  unfold ioctl
  dsimp only
  split <;> rfl

/-- The error of an `ioctl` is decided by the errno of the kernel. -/
theorem ioctl_err (k : Kernel) (w : World) (fd : Nat) (r : Req) (a : Arg) :
    (ioctl k w fd r a).1
      = if (k.sysIoctl fd r a).1 = 0 then none
        else some (GoError.syscallError "ioctl" (k.sysIoctl fd r a).1) := by
  unfold ioctl
  dsimp only
  by_cases h : (k.sysIoctl fd r a).1 = 0 <;> simp [h]

/-- The memory behind the argument of an `ioctl` is what the kernel left there. -/
theorem ioctl_mem (k : Kernel) (w : World) (fd : Nat) (r : Req) (a : Arg) :
    (ioctl k w fd r a).2.1 = (k.sysIoctl fd r a).2 := by
  unfold ioctl
  dsimp only
  split <;> rfl

/-- The world after `createInterface`: one logged set-interface call. -/
theorem createInterface_world (k : Kernel) (w : World) (fd : Nat) (s : Bytes) (f : Nat) :
    (createInterface k w fd s f).2
      = w.emit (Sys.ioctl fd Req.TUNSETIFF (Arg.mem (createInterfaceReq s f).bytes)) := by
  unfold createInterface
  dsimp only
  split <;> simp only [ioctl_world]

/-! ## Buffers -/

theorem goCopy_length (dst src : Bytes) : (goCopy dst src).length = dst.length := by
  simp only [goCopy, List.length_append, List.length_take, List.length_drop]
  omega

/-- Copying into a zeroed array: the bytes of the source that fit, then zeros. -/
theorem goCopy_zeroBytes (n : Nat) (s : Bytes) :
    goCopy (zeroBytes n) s = s.take n ++ List.replicate (n - s.length) 0 := by
  simp [goCopy, zeroBytes]

/-- Reading a byte past a prefix of known length. -/
theorem getD_append_at (a b : Bytes) (off i : Nat) (h : a.length = off) :
    (a ++ b).getD (off + i) 0 = b.getD i 0 := by
  subst h
  rw [List.getD_append_right _ _ _ _ (Nat.le_add_right _ _)]
  simp

/-- The two bytes of a 16-bit value recombine to it. -/
theorem readU16_le16 (a c : Bytes) (v off : Nat) (h : a.length = off) (hv : v < 65536) :
    readU16 (a ++ le16 v ++ c) off = v := by
  have h0 := getD_append_at a (le16 v ++ c) off 0 h
  have h1 := getD_append_at a (le16 v ++ c) off 1 h
  simp only [Nat.add_zero] at h0
  simp only [readU16, List.append_assoc, h0, h1]
  simp only [le16, List.cons_append, List.getD_cons_zero, List.getD_cons_succ]
  omega

/-! ## The set-interface request -/

/-- The name field of the request: 16 bytes. -/
theorem createInterfaceReq_name_length (s : Bytes) (f : Nat) :
    (createInterfaceReq s f).Name.length = 16 := by
  simp only [createInterfaceReq, ifReq.zero]
  rw [goCopy_length]
  simp [zeroBytes]

/-- C6: the request value `createInterface` builds is 40 bytes long; bytes 0..15
are the first `min (len s) 16` bytes of the requested name followed by zero
bytes up to 16, bytes 16..17 hold the 16-bit flag value, and the remaining 22
bytes are zero.  It is this value that the set-interface call is issued on. -/
theorem createInterface_request_layout (s : Bytes) (f : Nat) (hf : f < 65536) :
    ((createInterfaceReq s f).bytes).length = 40
    ∧ ((createInterfaceReq s f).bytes).take 16
        = s.take (min s.length 16) ++ List.replicate (16 - min s.length 16) 0
    ∧ (((createInterfaceReq s f).bytes).drop 16).take 2 = [f % 256, f / 256]
    ∧ readU16 (createInterfaceReq s f).bytes 16 = f
    ∧ ((createInterfaceReq s f).bytes).drop 18 = List.replicate 22 0
    ∧ ∀ (k : Kernel) (w : World) (fd : Nat),
        (createInterface k w fd s f).2.log
          = w.log ++ [Sys.ioctl fd Req.TUNSETIFF (Arg.mem (createInterfaceReq s f).bytes)] := by
  have hlen := createInterfaceReq_name_length s f
  have hname : (createInterfaceReq s f).Name
      = s.take (min s.length 16) ++ List.replicate (16 - min s.length 16) 0 := by
    simp only [createInterfaceReq, ifReq.zero]
    rw [goCopy_zeroBytes]
    congr 1
    · rcases Nat.le_total s.length 16 with h | h
      · rw [Nat.min_eq_left h, List.take_of_length_le h, List.take_of_length_le (le_refl _)]
      · rw [Nat.min_eq_right h]
    · congr 1
      omega
  have hflags : (createInterfaceReq s f).Flags = f := rfl
  have hpad : (createInterfaceReq s f).pad = List.replicate 22 0 := rfl
  have hmod : f % 65536 = f := Nat.mod_eq_of_lt hf
  refine ⟨?_, ?_, ?_, ?_, ?_, ?_⟩
  · simp [ifReq.bytes, hlen, hpad, le16]
  · rw [ifReq.bytes, List.append_assoc, List.take_left' hlen, hname]
  · rw [ifReq.bytes, List.append_assoc, List.drop_left' hlen, hflags, hmod]
    have : f / 256 % 256 = f / 256 := Nat.mod_eq_of_lt (by omega)
    simp [le16, this]
  · rw [ifReq.bytes, hflags, hmod]
    exact readU16_le16 _ _ f 16 hlen hf
  · rw [ifReq.bytes, hpad]
    exact List.drop_left' (by simp [hlen, le16])
  · intro k w fd
    rw [createInterface_world]
    rfl

/-- Witness for `createInterface_request_layout`: the name `tun7` with the flags
of a TUN device. -/
theorem createInterface_request_layout_witness :
    (4097 : Nat) < 65536
    ∧ ((createInterfaceReq [116, 117, 110, 55] 4097).bytes).length = 40
    ∧ ((createInterfaceReq [116, 117, 110, 55] 4097).bytes).take 16
        = [116, 117, 110, 55, 0, 0, 0, 0, 0, 0, 0, 0, 0, 0, 0, 0]
    ∧ readU16 (createInterfaceReq [116, 117, 110, 55] 4097).bytes 16 = 4097 :=
  have h := createInterface_request_layout [116, 117, 110, 55] 4097 (by decide)
  ⟨by decide, h.1, by decide, h.2.2.2.1⟩

/-! ## The MTU requests -/

/-- A 32-bit read depends on the four bytes at the offset only. -/
theorem readU32_window (buf : Bytes) (off : Nat) :
    readU32 buf off = readU32 ((buf.drop off).take 4) 0 := by
  simp [readU32, List.getElem?_take, List.getElem?_drop]

/-- The four bytes of a 32-bit value recombine to it. -/
theorem readU32_le32 (v : Nat) (hv : v < 4294967296) : readU32 (le32 v) 0 = v := by
  simp only [readU32, le32, List.getD_cons_zero, List.getD_cons_succ, Nat.zero_add]
  omega

theorem uint32_lt (n : Int) : uint32 n < 4294967296 := by
  unfold uint32
  omega

/-- An `int` in the range of `int32` survives `uint32` followed by `int32`. -/
theorem int32_uint32 (n : Int) (hlo : -2147483648 ≤ n) (hhi : n < 2147483648) :
    int32 (uint32 n) = n := by
  unfold int32 uint32
  split <;> omega

/-- The world after `setMTU` when the control socket opens: socket, one
set-MTU call on it, close. -/
theorem setMTU_world (k : Kernel) (w : World) (n : Int) (name : Bytes) (fd : Nat)
    (hs : k.sysSocket = Sum.inr fd) :
    (setMTU k w n name).2
      = ((((w.emit Sys.socket).opened fd).emit
          (Sys.ioctl fd Req.SIOCSIFMTU (Arg.mem (setMTUReq n name)))).close fd) := by
  unfold setMTU
  rw [hs]
  dsimp only
  split <;> rfl

/-- The error of `setMTU` when the control socket opens. -/
theorem setMTU_err (k : Kernel) (w : World) (n : Int) (name : Bytes) (fd : Nat)
    (hs : k.sysSocket = Sum.inr fd) :
    (setMTU k w n name).1
      = if (k.sysIoctl fd Req.SIOCSIFMTU (Arg.mem (setMTUReq n name))).1 = 0 then none
        else some GoError.setMTUFailed := by
  unfold setMTU
  rw [hs]
  dsimp only
  by_cases h : (k.sysIoctl fd Req.SIOCSIFMTU (Arg.mem (setMTUReq n name))).1 = 0 <;> simp [h]

/-- When the control socket does not open, `setMTU` issues nothing else. -/
theorem setMTU_nosocket (k : Kernel) (w : World) (n : Int) (name : Bytes) (e : Nat)
    (hs : k.sysSocket = Sum.inl e) :
    setMTU k w n name = (some (GoError.errno e), w.emit Sys.socket) := by
  unfold setMTU
  rw [hs]

/-- The descriptors open after `setMTU` are those open before it. -/
theorem setMTU_fds (k : Kernel) (w : World) (n : Int) (name : Bytes) :
    (setMTU k w n name).2.fds = w.fds := by
  cases hs : k.sysSocket with
  | inl e => rw [setMTU_nosocket k w n name e hs]; rfl
  | inr fd =>
    rw [setMTU_world k w n name fd hs]
    simp [World.close, World.emit, World.opened]

/-- The result of `mtu` when the control socket opens and the request succeeds. -/
theorem mtu_ok (k : Kernel) (w : World) (name : Bytes) (fd : Nat)
    (hs : k.sysSocket = Sum.inr fd)
    (hg : (k.sysIoctl fd Req.SIOCGIFMTU (Arg.mem (mtuReq name))).1 = 0) :
    (mtu k w name).1
      = Except.ok (mtuDecode (fitLen (IFNAMSIZ + 64)
          (k.sysIoctl fd Req.SIOCGIFMTU (Arg.mem (mtuReq name))).2)) := by
  unfold mtu
  rw [hs]
  simp [hg]

/-- The first 16 bytes of a zeroed 80-byte buffer after a name of at most 16
bytes was copied in. -/
theorem name_field (name : Bytes) (h : name.length ≤ 16) :
    (goCopy (zeroBytes (IFNAMSIZ + 64)) name).take 16
      = name ++ List.replicate (16 - name.length) 0 := by
  have h1 : name.take (IFNAMSIZ + 64) = name :=
    List.take_of_length_le (by simp only [IFNAMSIZ]; omega)
  rw [goCopy_zeroBytes, h1, List.take_append_eq_append_take, List.take_of_length_le h,
    List.take_replicate]
  congr 2
  simp only [IFNAMSIZ]
  omega

/-- The name field of the set-MTU request. -/
theorem setMTUReq_name (n : Int) (name : Bytes) :
    (setMTUReq n name).take 16 = (goCopy (zeroBytes (IFNAMSIZ + 64)) name).take 16 := by
  have hl : ((goCopy (zeroBytes (IFNAMSIZ + 64)) name).take 16).length = 16 := by
    simp [goCopy_length, zeroBytes, IFNAMSIZ]
  simp only [setMTUReq, poke, IFNAMSIZ] at hl ⊢
  rw [List.append_assoc, List.take_left' hl]

/-- The four bytes at offset 16 of the set-MTU request. -/
theorem setMTUReq_value (n : Int) (name : Bytes) :
    ((setMTUReq n name).drop 16).take 4 = le32 (uint32 n) := by
  have hl : ((goCopy (zeroBytes (IFNAMSIZ + 64)) name).take 16).length = 16 := by
    simp [goCopy_length, zeroBytes, IFNAMSIZ]
  simp only [setMTUReq, poke, IFNAMSIZ] at hl ⊢
  rw [List.append_assoc, List.drop_left' hl]
  exact List.take_left' rfl

/-- Bytes 16..19 of a buffer of at least 20 bytes survive the read-back into an
80-byte array. -/
theorem fitLen_window (b : Bytes) (h : 20 ≤ b.length) :
    ((fitLen (IFNAMSIZ + 64) b).drop 16).take 4 = (b.drop 16).take 4 := by
  simp only [fitLen, IFNAMSIZ]
  rw [List.drop_take, List.take_take, List.drop_append_of_le_length (by omega),
    List.take_append_of_le_length (by simp; omega)]
  rfl

/-- C5: for a name of at most 16 bytes and an MTU `n` with `68 ≤ n ≤ 65535`,
`setMTU n name` followed by `mtu name` returns `n`: when both control sockets
open and both requests succeed, and the reply to the get request hands back at
byte offset 16 the four bytes the set request carried there, `setMTU` returns
no error and `mtu` returns `n`.  The set request stores `uint32 n` at offset
`IFNAMSIZ`, and both requests carry the same first 16 bytes: the name followed
by zero bytes. -/
theorem setMTU_mtu_roundtrip (name : Bytes) (n : Int) (hname : name.length ≤ 16)
    (hlo : 68 ≤ n) (hhi : n ≤ 65535)
    (k1 k2 : Kernel) (w1 w2 : World) (fd1 fd2 : Nat)
    (hs1 : k1.sysSocket = Sum.inr fd1)
    (hset : (k1.sysIoctl fd1 Req.SIOCSIFMTU (Arg.mem (setMTUReq n name))).1 = 0)
    (hs2 : k2.sysSocket = Sum.inr fd2)
    (hget : (k2.sysIoctl fd2 Req.SIOCGIFMTU (Arg.mem (mtuReq name))).1 = 0)
    (hback : (((k2.sysIoctl fd2 Req.SIOCGIFMTU (Arg.mem (mtuReq name))).2).drop 16).take 4
        = ((setMTUReq n name).drop 16).take 4) :
    (setMTU k1 w1 n name).1 = none
    ∧ (mtu k2 w2 name).1 = Except.ok n
    ∧ readU32 (setMTUReq n name) IFNAMSIZ = uint32 n
    ∧ (setMTUReq n name).take 16 = (mtuReq name).take 16
    ∧ (mtuReq name).take 16 = name ++ List.replicate (16 - name.length) 0 := by
  have hval : readU32 (setMTUReq n name) IFNAMSIZ = uint32 n := by
    rw [readU32_window]
    simp only [IFNAMSIZ]
    rw [setMTUReq_value, readU32_le32 _ (uint32_lt n)]
  refine ⟨?_, ?_, hval, ?_, ?_⟩
  · rw [setMTU_err k1 w1 n name fd1 hs1, if_pos hset]
  · rw [mtu_ok k2 w2 name fd2 hs2 hget]
    have hlen : 20 ≤ ((k2.sysIoctl fd2 Req.SIOCGIFMTU (Arg.mem (mtuReq name))).2).length := by
      have := congrArg List.length hback
      rw [setMTUReq_value] at this
      simp only [List.length_take, List.length_drop, le32, List.length_cons,
        List.length_nil] at this
      omega
    have hw := fitLen_window _ hlen
    rw [hback, setMTUReq_value] at hw
    simp only [mtuDecode]
    rw [readU32_window]
    simp only [IFNAMSIZ] at hw ⊢
    rw [hw, readU32_le32 _ (uint32_lt n), int32_uint32 n (by omega) (by omega)]
  · rw [setMTUReq_name]
    rfl
  · exact name_field name hname

/-- Witness for `setMTU_mtu_roundtrip`: MTU 1500 set on `tun0` and read back
from a kernel that reports 1500. -/
theorem setMTU_mtu_roundtrip_witness :
    (setMTU (exampleKernel 0 allowAll) startWorld 1500 tun0).1 = none
    ∧ (mtu (exampleKernel 1500 allowAll) startWorld tun0).1 = Except.ok 1500 :=
  have h := setMTU_mtu_roundtrip tun0 1500 (by decide) (by decide) (by decide)
    (exampleKernel 0 allowAll) (exampleKernel 1500 allowAll) startWorld startWorld 4 4
    rfl rfl rfl rfl (by decide)
  ⟨h.1, h.2.1⟩

/-! ## Device creation -/

theorem newTAP_eq_newDev (k : Kernel) (w : World) (config : Config) :
    newTAP k w config = newDev true (newTAPFlags config) k w config := rfl

theorem newTUN_eq_newDev (k : Kernel) (w : World) (config : Config) :
    newTUN k w config = newDev false (newTUNFlags config) k w config := rfl

/-- The result of `createInterface`: the error of the call, or the trimmed name
field. -/
theorem createInterface_result (k : Kernel) (w : World) (fd : Nat) (s : Bytes) (f : Nat) :
    (createInterface k w fd s f).1
      = if setIffErrno k fd s f = 0 then Except.ok (trimNul (setIffName k fd s f))
        else Except.error (GoError.syscallError "ioctl" (setIffErrno k fd s f)) := by
  unfold createInterface
  dsimp only
  have he := ioctl_err k w fd Req.TUNSETIFF (Arg.mem (createInterfaceReq s f).bytes)
  by_cases h : setIffErrno k fd s f = 0
  · have h0 := h
    simp only [setIffErrno] at h0
    rw [if_pos h0] at he
    simp only [he, h, ioctl_mem, setIffName, if_true]
  · have h0 := h
    simp only [setIffErrno] at h0
    rw [if_neg h0] at he
    simp only [he, setIffErrno]
    rw [if_neg h0]

/-- The descriptors open after `createInterface` are those open before it. -/
theorem createInterface_fds (k : Kernel) (w : World) (fd : Nat) (s : Bytes) (f : Nat) :
    (createInterface k w fd s f).2.fds = w.fds := by
  rw [createInterface_world]
  rfl

/-- The descriptors open after `setDeviceOptions` are those open before it. -/
theorem setDeviceOptions_fds (k : Kernel) (w : World) (fd : Nat) (config : Config) :
    (setDeviceOptions k w fd config).2.fds = w.fds := by
  unfold setDeviceOptions
  dsimp only
  split
  · split
    · simp only [ioctl_world]; rfl
    · split <;> simp only [ioctl_world] <;> rfl
  · simp only [ioctl_world]; rfl

/-- The body of `newTAP` and `newTUN` once the device node is open, written
with the results of the three setup steps. -/
theorem newDev_open (isTAP : Bool) (flags : Nat) (k : Kernel) (w : World) (config : Config)
    (fd : Nat) (ho : k.sysOpen = Sum.inr fd) :
    newDev isTAP flags k w config
      = match (createInterface k ((w.emit Sys.openTun).opened fd) fd config.Name flags).1 with
        | Except.error err =>
          (Except.error err,
            (createInterface k ((w.emit Sys.openTun).opened fd) fd config.Name flags).2)
        | Except.ok name =>
          match (setDeviceOptions k
              (createInterface k ((w.emit Sys.openTun).opened fd) fd config.Name flags).2
              fd config).1 with
          | some err =>
            (Except.error err, (setDeviceOptions k
              (createInterface k ((w.emit Sys.openTun).opened fd) fd config.Name flags).2
              fd config).2)
          | none =>
            match (setMTU k (setDeviceOptions k
                (createInterface k ((w.emit Sys.openTun).opened fd) fd config.Name flags).2
                fd config).2 config.MTU name).1 with
            | some err =>
              (Except.error err, ((setMTU k (setDeviceOptions k
                (createInterface k ((w.emit Sys.openTun).opened fd) fd config.Name flags).2
                fd config).2 config.MTU name).2).close fd)
            | none =>
              (Except.ok { isTAP := isTAP, file := fd, name := name, events := [] },
                (setMTU k (setDeviceOptions k
                  (createInterface k ((w.emit Sys.openTun).opened fd) fd config.Name flags).2
                  fd config).2 config.MTU name).2) := by
  unfold newDev
  rw [ho]
  dsimp only
  rcases createInterface k ((w.emit Sys.openTun).opened fd) fd config.Name flags with ⟨r, w2⟩
  cases r with
  | error err => rfl
  | ok name =>
    dsimp only
    rcases setDeviceOptions k w2 fd config with ⟨r2, w3⟩
    cases r2 with
    | some err => rfl
    | none =>
      dsimp only
      rcases setMTU k w3 config.MTU name with ⟨r3, w4⟩
      cases r3 <;> rfl

/-! ## The assigned name -/

/-- Trimming does not lengthen. -/
theorem trimNul_length_le (s : Bytes) : (trimNul s).length ≤ s.length := by
  unfold trimNul trimLeftByte trimRightByte
  exact le_trans (List.dropWhile_suffix _).length_le (List.rdropWhile_prefix _ _).length_le

/-- Trimming leaves nothing exactly when every byte is NUL. -/
theorem trimNul_eq_nil_iff (s : Bytes) : trimNul s = [] ↔ ∀ b ∈ s, b = 0 := by
  unfold trimNul trimLeftByte trimRightByte
  rw [List.dropWhile_eq_nil_iff]
  constructor
  · intro h
    have hnil : List.rdropWhile (fun b => b == 0) s = [] := by
      by_contra hne
      have hlast := List.rdropWhile_last_not (fun b => b == 0) s hne
      exact hlast (h _ (List.getLast_mem hne))
    rw [List.rdropWhile_eq_nil_iff] at hnil
    intro b hb
    simpa using hnil b hb
  · intro h x hx
    have := h x ((List.rdropWhile_prefix _ _).subset hx)
    simpa using this

/-- The name field read back after the set-interface call has 16 bytes. -/
theorem setIffName_length (k : Kernel) (fd : Nat) (s : Bytes) (f : Nat) :
    (setIffName k fd s f).length = 16 := by
  simp [setIffName, ifReq.ofBytes, fitLen, zeroBytes]

/-- A successful run of the common body: the device node opened, and the
interface carries the trimmed name field. -/
theorem newDev_ok (isTAP : Bool) (flags : Nat) (k : Kernel) (w : World) (config : Config)
    (ifce : Interface) (h : (newDev isTAP flags k w config).1 = Except.ok ifce) :
    ∃ fd, k.sysOpen = Sum.inr fd ∧ setIffErrno k fd config.Name flags = 0
      ∧ ifce = { isTAP := isTAP, file := fd,
                 name := trimNul (setIffName k fd config.Name flags), events := [] } := by
  cases ho : k.sysOpen with
  | inl e =>
    unfold newDev at h
    rw [ho] at h
    simp at h
  | inr fd =>
    refine ⟨fd, rfl, ?_⟩
    rw [newDev_open isTAP flags k w config fd ho, createInterface_result] at h
    by_cases he : setIffErrno k fd config.Name flags = 0
    · refine ⟨he, ?_⟩
      rw [if_pos he] at h
      dsimp only at h
      split at h
      · simp at h
      · split at h
        · simp at h
        · simpa using h.symm
    · rw [if_neg he] at h
      simp at h

/-- The name a successful run of the common body stores: the name field the
kernel left behind a granted set-interface request, trimmed. -/
theorem newDev_name (isTAP : Bool) (flags : Nat) (k : Kernel) (w : World) (config : Config)
    (ifce : Interface) (h : (newDev isTAP flags k w config).1 = Except.ok ifce) :
    ∃ fd, k.sysOpen = Sum.inr fd
      ∧ setIffErrno k fd config.Name flags = 0
      ∧ (setIffName k fd config.Name flags).length = 16
      ∧ ifce.name = trimNul (setIffName k fd config.Name flags)
      ∧ ifce.name.length ≤ 16
      ∧ (ifce.name ≠ [] ↔ ∃ b ∈ setIffName k fd config.Name flags, b ≠ 0) := by
  obtain ⟨fd, ho, he, hi⟩ := newDev_ok isTAP flags k w config ifce h
  have hn : ifce.name = trimNul (setIffName k fd config.Name flags) := by rw [hi]
  have hl := setIffName_length k fd config.Name flags
  refine ⟨fd, ho, he, hl, hn, ?_, ?_⟩
  · rw [hn]
    exact le_trans (trimNul_length_le _) (le_of_eq hl)
  · rw [hn, Ne, trimNul_eq_nil_iff]
    push_neg
    rfl

/-- The example kernel keeps the contract of `TUNSETIFF`: it writes `tun0` into
an empty name field and leaves a name that is there alone. -/
theorem exampleKernel_namesDevice (cur : Int) : namesDevice (exampleKernel cur allowAll) := by
  intro fd b _
  have hmem : ∀ (x : Nat) (t : Bytes), x ∈ (ifReq.ofBytes (x :: t)).Name := by
    intro x t
    simp [ifReq.ofBytes, fitLen]
  by_cases hb : b.headD 0 = 0
  · have hr : ((exampleKernel cur allowAll).sysIoctl fd Req.TUNSETIFF (Arg.mem b)).2
        = 116 :: ([117, 110, 48] ++ b.drop 4) := by
      show (if b.headD 0 = 0 then tun0 ++ b.drop 4 else b) = _
      rw [if_pos hb]
      rfl
    rw [hr]
    exact ⟨116, hmem _ _, by decide⟩
  · cases b with
    | nil => exact absurd rfl hb
    | cons x t =>
      have hr : ((exampleKernel cur allowAll).sysIoctl fd Req.TUNSETIFF (Arg.mem (x :: t))).2
          = x :: t := by
        show (if (x :: t).headD 0 = 0 then tun0 ++ (x :: t).drop 4 else x :: t) = _
        rw [if_neg hb]
      rw [hr]
      exact ⟨x, hmem _ _, by simpa using hb⟩

/-- C7: for every configuration whose requested name is empty and every
successful creation by `newTUN` or `newTAP`, on a kernel that keeps the contract
of `TUNSETIFF` (a granted request leaves the assigned, non-empty name in the
name field), the name stored in the interface is the 16-byte name field the
kernel wrote back with leading and trailing NUL bytes trimmed, and it is
non-empty and at most 16 bytes long. -/
theorem created_name_nonempty (k : Kernel) (w : World) (config : Config) (ifce : Interface)
    (_hname : config.Name = []) (hk : namesDevice k)
    (hok : (newTUN k w config).1 = Except.ok ifce ∨ (newTAP k w config).1 = Except.ok ifce) :
    ifce.name ≠ [] ∧ ifce.name.length ≤ 16
    ∧ ∃ fd field, k.sysOpen = Sum.inr fd
        ∧ (field = setIffName k fd config.Name (newTUNFlags config)
            ∨ field = setIffName k fd config.Name (newTAPFlags config))
        ∧ field.length = 16
        ∧ ifce.name = trimNul field := by
  rcases hok with h | h
  · rw [newTUN_eq_newDev] at h
    obtain ⟨fd, ho, he, hl, hn, hle, hne⟩ := newDev_name false _ k w config ifce h
    exact ⟨hne.mpr (hk fd _ he), hle, fd, _, ho, Or.inl rfl, hl, hn⟩
  · rw [newTAP_eq_newDev] at h
    obtain ⟨fd, ho, he, hl, hn, hle, hne⟩ := newDev_name true _ k w config ifce h
    exact ⟨hne.mpr (hk fd _ he), hle, fd, _, ho, Or.inr rfl, hl, hn⟩

/-- Witness for `created_name_nonempty`: with no name requested, the example
kernel names the device `tun0`, and `newTUN` stores that name. -/
theorem created_name_nonempty_witness :
    defaultConfig.Name = []
    ∧ (newTUN (exampleKernel 1500 allowAll) startWorld defaultConfig).1
        = Except.ok { isTAP := false, file := 3, name := tun0, events := [] }
    ∧ tun0 ≠ [] ∧ tun0.length ≤ 16 :=
  have h := created_name_nonempty (exampleKernel 1500 allowAll) startWorld defaultConfig
    { isTAP := false, file := 3, name := tun0, events := [] } rfl
    (exampleKernel_namesDevice 1500) (Or.inl rfl)
  ⟨rfl, rfl, h.1, h.2.1⟩

/-! ## Device options -/

/-- An `ioctl` the kernel grants. -/
theorem ioctl_granted (k : Kernel) (w : World) (fd : Nat) (r : Req) (a : Arg)
    (h : (k.sysIoctl fd r a).1 = 0) :
    ioctl k w fd r a = (none, (k.sysIoctl fd r a).2, w.emit (Sys.ioctl fd r a)) := by
  unfold ioctl
  simp [h]

/-- An `ioctl` the kernel refuses. -/
theorem ioctl_refused (k : Kernel) (w : World) (fd : Nat) (r : Req) (a : Arg)
    (h : (k.sysIoctl fd r a).1 ≠ 0) :
    ioctl k w fd r a
      = (some (GoError.syscallError "ioctl" (k.sysIoctl fd r a).1), (k.sysIoctl fd r a).2,
          w.emit (Sys.ioctl fd r a)) := by
  unfold ioctl
  simp [h]

/-- C8 (as amended): when no control request fails, `setDeviceOptions` issues a
set-owner request followed by a set-group request exactly when permissions are
given, and then always a persist-flag request, whose argument is 1 when
`Persist` is true and 0 otherwise; it returns no error.  When the set-owner
request fails, it is the only request issued and its error is returned. -/
theorem setDeviceOptions_requests (k : Kernel) (w : World) (fd : Nat) (config : Config) :
    ((∀ r a, (k.sysIoctl fd r a).1 = 0) →
      setDeviceOptions k w fd config
        = (none,
            { fds := w.fds,
              log := w.log
                ++ (match config.Permissions with
                    | some p => [Sys.ioctl fd Req.TUNSETOWNER (Arg.val p.Owner),
                                 Sys.ioctl fd Req.TUNSETGROUP (Arg.val p.Group)]
                    | none => [])
                ++ [Sys.ioctl fd Req.TUNSETPERSIST
                      (Arg.val (if config.Persist then 1 else 0))] }))
    ∧ (∀ p, config.Permissions = some p →
        (k.sysIoctl fd Req.TUNSETOWNER (Arg.val p.Owner)).1 ≠ 0 →
        setDeviceOptions k w fd config
          = (some (GoError.syscallError "ioctl"
                (k.sysIoctl fd Req.TUNSETOWNER (Arg.val p.Owner)).1),
              { fds := w.fds, log := w.log ++ [Sys.ioctl fd Req.TUNSETOWNER (Arg.val p.Owner)] })) := by
  constructor
  · intro hall
    unfold setDeviceOptions
    cases hp : config.Permissions with
    | none =>
      simp [ioctl_granted _ _ _ _ _ (hall _ _), World.emit]
    | some p =>
      simp [ioctl_granted _ _ _ _ _ (hall _ _), World.emit]
  · intro p hp hfail
    unfold setDeviceOptions
    rw [hp]
    simp [ioctl_refused _ _ _ _ _ hfail, World.emit]

/-- Witness for `setDeviceOptions_requests`: owner 1000, group 100 and the
persist flag on a granting kernel, and the same options on a kernel that
refuses the set-owner request. -/
theorem setDeviceOptions_requests_witness :
    (setDeviceOptions silentKernel startWorld 3
        { defaultConfig with Persist := true, Permissions := some { Owner := 1000, Group := 100 } }
      = (none, { fds := [0, 1, 2],
                 log := [Sys.ioctl 3 Req.TUNSETOWNER (Arg.val 1000),
                         Sys.ioctl 3 Req.TUNSETGROUP (Arg.val 100),
                         Sys.ioctl 3 Req.TUNSETPERSIST (Arg.val 1)] }))
    ∧ (setDeviceOptions (exampleKernel 1500 (denyOnly Req.TUNSETOWNER)) startWorld 3
        { defaultConfig with Persist := true, Permissions := some { Owner := 1000, Group := 100 } }
      = (some (GoError.syscallError "ioctl" 1),
          { fds := [0, 1, 2], log := [Sys.ioctl 3 Req.TUNSETOWNER (Arg.val 1000)] })) :=
  ⟨(setDeviceOptions_requests silentKernel startWorld 3
      { defaultConfig with Persist := true,
                           Permissions := some { Owner := 1000, Group := 100 } }).1
      (fun _ a => by cases a <;> rfl),
   (setDeviceOptions_requests (exampleKernel 1500 (denyOnly Req.TUNSETOWNER)) startWorld 3
      { defaultConfig with Persist := true,
                           Permissions := some { Owner := 1000, Group := 100 } }).2
      { Owner := 1000, Group := 100 } rfl (by decide)⟩

/-- C8 (counterexample): the claim as stated fails.  With `Persist` false and no
permissions, on a kernel that grants every request, `setDeviceOptions` still
issues a persist-flag request (with argument 0). -/
theorem setDeviceOptions_persist_always_issued :
    ¬ (∀ (k : Kernel) (w : World) (fd : Nat) (config : Config),
        (∀ r a, (k.sysIoctl fd r a).1 = 0) →
        ((∃ a, Sys.ioctl fd Req.TUNSETPERSIST a ∈ (setDeviceOptions k w fd config).2.log)
          ↔ config.Persist = true)) := by
  intro h
  have h1 := h silentKernel startWorld 3 defaultConfig (fun _ a => by cases a <;> rfl)
  have h2 : defaultConfig.Persist = true := h1.mp ⟨Arg.val 0, by decide⟩
  exact absurd h2 (by decide)

/-! ## Descriptors on the failure paths of creation -/

/-- Every error of `setDeviceOptions` is the error of a refused `ioctl`. -/
theorem setDeviceOptions_err (k : Kernel) (w : World) (fd : Nat) (config : Config)
    (err : GoError) (h : (setDeviceOptions k w fd config).1 = some err) :
    ∃ e, err = GoError.syscallError "ioctl" e := by
  have key : ∀ (w : World) (r : Req) (a : Arg), (ioctl k w fd r a).1 = some err →
      ∃ e, err = GoError.syscallError "ioctl" e := by
    intro w r a hi
    rw [ioctl_err] at hi
    split at hi
    · simp at hi
    · exact ⟨_, by simpa using hi.symm⟩
  unfold setDeviceOptions at h
  dsimp only at h
  split at h
  · split at h
    · rename_i e he
      exact key _ _ _ (by rw [he]; simpa using h)
    · split at h
      · rename_i e he
        exact key _ _ _ (by rw [he]; simpa using h)
      · exact key _ _ _ h
  · exact key _ _ _ h

/-- No error of `setMTU` is the error of a refused `ioctl`: it is the errno of
`socket`, or the fixed set-MTU error. -/
theorem setMTU_err_kind (k : Kernel) (w : World) (n : Int) (name : Bytes) (err : GoError)
    (h : (setMTU k w n name).1 = some err) :
    err = GoError.setMTUFailed ∨ ∃ e, err = GoError.errno e := by
  cases hs : k.sysSocket with
  | inl e =>
    rw [setMTU_nosocket k w n name e hs] at h
    exact Or.inr ⟨e, by simpa using h.symm⟩
  | inr fd =>
    rw [setMTU_err k w n name fd hs] at h
    split at h
    · simp at h
    · exact Or.inl (by simpa using h.symm)

/-- The descriptors open after `newTAP` or `newTUN`, once the device node was
opened as `fd`: on success the new descriptor is open; on the failure of the
set-interface, owner, group or persist request (the errors of a refused
`ioctl`) it is still open; on the failure of `setMTU` it has been closed. -/
theorem newDev_fds (isTAP : Bool) (flags : Nat) (k : Kernel) (w : World) (config : Config)
    (fd : Nat) (ho : k.sysOpen = Sum.inr fd) :
    (newDev isTAP flags k w config).2.fds
      = match (newDev isTAP flags k w config).1 with
        | Except.ok _ => fd :: w.fds
        | Except.error (GoError.syscallError _ _) => fd :: w.fds
        | Except.error _ => w.fds := by
  have hw1 : ((w.emit Sys.openTun).opened fd).fds = fd :: w.fds := rfl
  rw [newDev_open isTAP flags k w config fd ho]
  split
  · rename_i err hci
    have hr := createInterface_result k ((w.emit Sys.openTun).opened fd) fd config.Name flags
    rw [hci] at hr
    split at hr
    · simp at hr
    · have : err = GoError.syscallError "ioctl" (setIffErrno k fd config.Name flags) := by
        simpa using hr
      subst this
      dsimp only
      rw [createInterface_fds, hw1]
  · rename_i name hci
    split
    · rename_i err hsd
      obtain ⟨e, he⟩ := setDeviceOptions_err _ _ _ _ _ hsd
      subst he
      dsimp only
      rw [setDeviceOptions_fds, createInterface_fds, hw1]
    · split
      · rename_i err hsm
        have hfds : ((setMTU k (setDeviceOptions k (createInterface k
            ((w.emit Sys.openTun).opened fd) fd config.Name flags).2 fd config).2
            config.MTU name).2.close fd).fds = w.fds := by
          simp only [World.close]
          rw [setMTU_fds, setDeviceOptions_fds, createInterface_fds, hw1]
          simp
        rcases setMTU_err_kind _ _ _ _ _ hsm with h | ⟨e, h⟩
        · subst h
          exact hfds
        · subst h
          exact hfds
      · dsimp only
        rw [setMTU_fds, setDeviceOptions_fds, createInterface_fds, hw1]

/-- C1 (failing input): `newTUN` and `newTAP` return an error with the
descriptor they opened still open, and never closed, when the kernel refuses
the set-interface request, and likewise when it refuses the persist request of
`setDeviceOptions`; only when `setMTU` fails has the descriptor been closed
before the error is returned. -/
theorem create_failure_leaks_descriptor :
    ((newTUN (exampleKernel 1500 (denyOnly Req.TUNSETIFF)) startWorld defaultConfig).1
        = Except.error (GoError.syscallError "ioctl" 1)
      ∧ (newTUN (exampleKernel 1500 (denyOnly Req.TUNSETIFF)) startWorld defaultConfig).2.fds
        = 3 :: startWorld.fds
      ∧ Sys.close 3 ∉
        (newTUN (exampleKernel 1500 (denyOnly Req.TUNSETIFF)) startWorld defaultConfig).2.log)
    ∧ ((newTAP (exampleKernel 1500 (denyOnly Req.TUNSETPERSIST)) startWorld defaultConfig).1
        = Except.error (GoError.syscallError "ioctl" 1)
      ∧ (newTAP (exampleKernel 1500 (denyOnly Req.TUNSETPERSIST)) startWorld defaultConfig).2.fds
        = 3 :: startWorld.fds
      ∧ Sys.close 3 ∉
        (newTAP (exampleKernel 1500 (denyOnly Req.TUNSETPERSIST)) startWorld defaultConfig).2.log)
    ∧ ((newTUN (exampleKernel 1500 (denyOnly Req.SIOCSIFMTU)) startWorld defaultConfig).1
        = Except.error GoError.setMTUFailed
      ∧ (newTUN (exampleKernel 1500 (denyOnly Req.SIOCSIFMTU)) startWorld defaultConfig).2.fds
        = startWorld.fds
      ∧ Sys.close 3 ∈
        (newTUN (exampleKernel 1500 (denyOnly Req.SIOCSIFMTU)) startWorld defaultConfig).2.log) := by
  refine ⟨⟨rfl, rfl, ?_⟩, ⟨rfl, rfl, ?_⟩, ⟨rfl, rfl, ?_⟩⟩ <;> decide

/-! ## The event watcher -/

/-- The log after `setMTU` when the control socket opens. -/
theorem setMTU_log (k : Kernel) (w : World) (n : Int) (name : Bytes) (fd : Nat)
    (hs : k.sysSocket = Sum.inr fd) :
    (setMTU k w n name).2.log
      = w.log ++ [Sys.socket, Sys.ioctl fd Req.SIOCSIFMTU (Arg.mem (setMTUReq n name)),
                  Sys.close fd] := by
  rw [setMTU_world k w n name fd hs]
  simp [World.close, World.emit, World.opened]

/-- The watcher is running after every turn of its loop. -/
theorem watcherStep_running (k : Kernel) (w : World) (evMTU : Int) (config : Config)
    (name : Bytes) (x : Option Int) :
    (watcherStep k w evMTU config name x).1 = Watcher.running := by
  unfold watcherStep
  split <;> rfl

/-- The world after a turn of the loop is the world after its `select`. -/
theorem watcherStep_world (k : Kernel) (w : World) (evMTU : Int) (config : Config)
    (name : Bytes) (x : Option Int) :
    (watcherStep k w evMTU config name x).2
      = (watcherSelect k w evMTU config name (chanRecv x)).2 := by
  unfold watcherStep
  split <;> (rename_i h; rw [h])

/-- The MTU after two stretches of the log. -/
theorem appliedMTU_append (cur : Int) (a b : List Sys) :
    appliedMTU cur (a ++ b) = appliedMTU (appliedMTU cur a) b := by
  induction a generalizing cur with
  | nil => rfl
  | cons s rest ih =>
    cases s with
    | openTun => exact ih cur
    | socket => exact ih cur
    | close fd => exact ih cur
    | ioctl fd r arg =>
      cases r <;> cases arg <;> first | exact ih cur | exact ih _

/-- The set-MTU request carries its MTU, for an MTU in the range of `int32`. -/
theorem mtuDecode_setMTUReq (n : Int) (name : Bytes) (hlo : -2147483648 ≤ n)
    (hhi : n < 2147483648) : mtuDecode (setMTUReq n name) = n := by
  unfold mtuDecode
  rw [readU32_window]
  simp only [IFNAMSIZ]
  rw [setMTUReq_value, readU32_le32 _ (uint32_lt n), int32_uint32 n hlo hhi]

/-- C3 (as amended): when the watcher consumes an MTU-update event and the
set-MTU request succeeds, the request it issued is the one of creation: it
carries the interface name and the MTU `m` of the configuration (the event is a
plain `int` and carries no MTU).  The MTU of the interface afterwards is `m`,
whatever it was before. -/
theorem watcher_mtu_update_applies_config_mtu (k : Kernel) (w : World) (evMTU : Int)
    (config : Config) (name : Bytes) (fd : Nat) (cur : Int)
    (hev : evMTU ≠ 0)
    (hlo : -2147483648 ≤ config.MTU) (hhi : config.MTU < 2147483648)
    (hs : k.sysSocket = Sum.inr fd)
    (_hset : (k.sysIoctl fd Req.SIOCSIFMTU (Arg.mem (setMTUReq config.MTU name))).1 = 0) :
    (watcherStep k w evMTU config name (some evMTU)).2.log
      = w.log ++ [Sys.socket,
                  Sys.ioctl fd Req.SIOCSIFMTU (Arg.mem (setMTUReq config.MTU name)),
                  Sys.close fd]
    ∧ mtuDecode (setMTUReq config.MTU name) = config.MTU
    ∧ appliedMTU cur (watcherStep k w evMTU config name (some evMTU)).2.log = config.MTU := by
  have hlog : (watcherStep k w evMTU config name (some evMTU)).2.log
      = w.log ++ [Sys.socket,
                  Sys.ioctl fd Req.SIOCSIFMTU (Arg.mem (setMTUReq config.MTU name)),
                  Sys.close fd] := by
    rw [watcherStep_world]
    simp only [watcherSelect, chanRecv, Option.getD_some, if_neg hev, if_true]
    exact setMTU_log k w config.MTU name fd hs
  have hdec := mtuDecode_setMTUReq config.MTU name hlo hhi
  refine ⟨hlog, hdec, ?_⟩
  rw [hlog, appliedMTU_append]
  simp only [appliedMTU, hdec]

/-- Witness for `watcher_mtu_update_applies_config_mtu`: an interface `tun0`
created with MTU 1500 whose MTU has become 9000. -/
theorem watcher_mtu_update_applies_config_mtu_witness :
    (watcherStep (exampleKernel 9000 allowAll) startWorld 4 defaultConfig tun0 (some 4)).2.log
      = startWorld.log ++ [Sys.socket,
          Sys.ioctl 4 Req.SIOCSIFMTU (Arg.mem (setMTUReq defaultConfig.MTU tun0)),
          Sys.close 4]
    ∧ mtuDecode (setMTUReq defaultConfig.MTU tun0) = defaultConfig.MTU
    ∧ appliedMTU 9000
        (watcherStep (exampleKernel 9000 allowAll) startWorld 4 defaultConfig tun0 (some 4)).2.log
      = defaultConfig.MTU :=
  watcher_mtu_update_applies_config_mtu (exampleKernel 9000 allowAll) startWorld 4
    defaultConfig tun0 4 9000 (by decide) (by decide) (by decide) rfl rfl

/-- C3 (counterexample): the claim as stated fails.  Here `n` is the new MTU:
the MTU the interface has when the event arrives, and the MTU the claim expects
afterwards.  For an interface created with MTU 1500 whose new MTU is 9000, the
watcher consumes the MTU-update event, the set-MTU request succeeds, and the
MTU applied is 1500, not 9000. -/
theorem watcher_mtu_update_not_new_mtu :
    ¬ (∀ (k : Kernel) (w : World) (evMTU : Int) (config : Config) (name : Bytes) (fd : Nat)
        (n : Int), evMTU ≠ 0 → k.sysSocket = Sum.inr fd →
        (k.sysIoctl fd Req.SIOCSIFMTU (Arg.mem (setMTUReq config.MTU name))).1 = 0 →
        appliedMTU n (watcherStep k w evMTU config name (some evMTU)).2.log = n) := by
  intro h
  have h1 := h (exampleKernel 9000 allowAll) startWorld 4 defaultConfig tun0 4 9000
    (by decide) rfl rfl
  have h2 : appliedMTU 9000
      (watcherStep (exampleKernel 9000 allowAll) startWorld 4 defaultConfig tun0 (some 4)).2.log
      = 1500 := by decide
  rw [h2] at h1
  exact absurd h1 (by decide)

/-- C9 (failing input): the watcher never stops.  Whatever it receives, the
sentinel 0 and the zero values of a closed queue included, it is running after
every turn, so it is running after any sequence of receives; in particular it
is running after receiving 0 and after a receive on the closed queue. -/
theorem watcher_never_stops (evMTU : Int) (config : Config) (name : Bytes) :
    (∀ (inputs : List (Kernel × Option Int)) (w : World),
      (watcherRun evMTU config name (Watcher.running, w) inputs).1 = Watcher.running)
    ∧ (∀ (k : Kernel) (w : World),
        watcherStep k w evMTU config name (some 0) = (Watcher.running, w)
        ∧ watcherStep k w evMTU config name none = (Watcher.running, w)) := by
  constructor
  · intro inputs
    induction inputs with
    | nil => intro w; rfl
    | cons kx rest ih =>
      intro w
      obtain ⟨k, x⟩ := kx
      have hrun := watcherStep_running k w evMTU config name x
      rcases hstep : watcherStep k w evMTU config name x with ⟨s, w2⟩
      rw [hstep] at hrun
      dsimp only at hrun
      subst hrun
      simp only [watcherRun, hstep]
      exact ih w2
  · intro k w
    constructor <;> simp [watcherStep, watcherSelect, chanRecv]

/-- C10: a turn of the watcher loop on an event that is 0 (the zero value of a
closed queue included) or any value other than the MTU-update event issues no
system call at all; on the MTU-update event it runs `setMTU` once, for the
configured MTU and the assigned name, which issues exactly one set-MTU request
once its control socket is open; in every case, whatever the outcome of that
request, no error leaves the turn and the watcher is running afterwards. -/
theorem watcher_step_requests (k : Kernel) (w : World) (evMTU : Int) (config : Config)
    (name : Bytes) (x : Option Int) (hev : evMTU ≠ 0) :
    (watcherStep k w evMTU config name x).1 = Watcher.running
    ∧ (chanRecv x = 0 ∨ chanRecv x ≠ evMTU →
        (watcherStep k w evMTU config name x).2 = w)
    ∧ (chanRecv x = evMTU →
        (watcherStep k w evMTU config name x).2 = (setMTU k w config.MTU name).2
        ∧ (watcherStep k w evMTU config name x).2.fds = w.fds
        ∧ (∀ fd, k.sysSocket = Sum.inr fd →
            (watcherStep k w evMTU config name x).2.log
              = w.log ++ [Sys.socket,
                  Sys.ioctl fd Req.SIOCSIFMTU (Arg.mem (setMTUReq config.MTU name)),
                  Sys.close fd]
            ∧ (setMTUReq config.MTU name).take 16
                = (goCopy (zeroBytes (IFNAMSIZ + 64)) name).take 16)
        ∧ (∀ e, k.sysSocket = Sum.inl e →
            (watcherStep k w evMTU config name x).2.log = w.log ++ [Sys.socket])) := by
  refine ⟨watcherStep_running _ _ _ _ _ _, ?_, ?_⟩
  · intro h
    rw [watcherStep_world]
    unfold watcherSelect
    rcases h with h | h
    · rw [if_pos h]
    · by_cases h0 : chanRecv x = 0
      · rw [if_pos h0]
      · rw [if_neg h0, if_neg h]
  · intro h
    have hw : (watcherStep k w evMTU config name x).2 = (setMTU k w config.MTU name).2 := by
      rw [watcherStep_world]
      unfold watcherSelect
      rw [if_neg (by rw [h]; exact hev), if_pos h]
    refine ⟨hw, ?_, ?_, ?_⟩
    · rw [hw, setMTU_fds]
    · intro fd hs
      rw [hw]
      exact ⟨setMTU_log k w config.MTU name fd hs, setMTUReq_name config.MTU name⟩
    · intro e hs
      rw [hw, setMTU_nosocket k w config.MTU name e hs]
      rfl

/-- Witness for `watcher_step_requests`: the MTU-update event, with the value 4,
on a kernel that refuses the set-MTU request. -/
theorem watcher_step_requests_witness :
    (watcherStep (exampleKernel 1500 (denyOnly Req.SIOCSIFMTU)) startWorld 4 defaultConfig
        tun0 (some 4)).1 = Watcher.running
    ∧ (watcherStep (exampleKernel 1500 (denyOnly Req.SIOCSIFMTU)) startWorld 4 defaultConfig
        tun0 (some 4)).2.log
      = [Sys.socket, Sys.ioctl 4 Req.SIOCSIFMTU (Arg.mem (setMTUReq 1500 tun0)), Sys.close 4]
    ∧ (watcherStep (exampleKernel 1500 (denyOnly Req.SIOCSIFMTU)) startWorld 4 defaultConfig
        tun0 (some 7)).2 = startWorld :=
  have h := watcher_step_requests (exampleKernel 1500 (denyOnly Req.SIOCSIFMTU)) startWorld 4
    defaultConfig tun0 (some 4) (by decide)
  have h7 := watcher_step_requests (exampleKernel 1500 (denyOnly Req.SIOCSIFMTU)) startWorld 4
    defaultConfig tun0 (some 7) (by decide)
  ⟨h.1, ((h.2.2 rfl).2.2.1 4 rfl).1, h7.2.1 (Or.inr (by decide))⟩

/-! ## The flags of the set-interface request -/

/-- The log after `setDeviceOptions` extends the log before it. -/
theorem setDeviceOptions_log_ext (k : Kernel) (w : World) (fd : Nat) (config : Config) :
    ∃ rest, (setDeviceOptions k w fd config).2.log = w.log ++ rest := by
  unfold setDeviceOptions
  dsimp only
  split
  · split
    · exact ⟨_, by simp only [ioctl_world]; rfl⟩
    · split
      · exact ⟨_, by simp only [ioctl_world, World.emit, List.append_assoc]; rfl⟩
      · exact ⟨_, by simp only [ioctl_world, World.emit, List.append_assoc]; rfl⟩
  · exact ⟨_, by simp only [ioctl_world]; rfl⟩

/-- The log after `setMTU` extends the log before it. -/
theorem setMTU_log_ext (k : Kernel) (w : World) (n : Int) (name : Bytes) :
    ∃ rest, (setMTU k w n name).2.log = w.log ++ rest := by
  cases hs : k.sysSocket with
  | inl e => exact ⟨_, by rw [setMTU_nosocket k w n name e hs]; rfl⟩
  | inr fd => exact ⟨_, setMTU_log k w n name fd hs⟩

/-- Once the device node is open, the first request of `newTAP` and `newTUN` is
the set-interface request built from the configured name and the flag value. -/
theorem newDev_log (isTAP : Bool) (flags : Nat) (k : Kernel) (w : World) (config : Config)
    (fd : Nat) (ho : k.sysOpen = Sum.inr fd) :
    ∃ rest, (newDev isTAP flags k w config).2.log
      = w.log ++ [Sys.openTun,
          Sys.ioctl fd Req.TUNSETIFF (Arg.mem (createInterfaceReq config.Name flags).bytes)]
        ++ rest := by
  have hci : (createInterface k ((w.emit Sys.openTun).opened fd) fd config.Name flags).2.log
      = w.log ++ [Sys.openTun,
          Sys.ioctl fd Req.TUNSETIFF (Arg.mem (createInterfaceReq config.Name flags).bytes)] := by
    rw [createInterface_world]
    simp [World.emit, World.opened]
  rw [newDev_open isTAP flags k w config fd ho]
  split
  · exact ⟨[], by rw [List.append_nil]; exact hci⟩
  · rename_i name _
    obtain ⟨r1, h1⟩ := setDeviceOptions_log_ext k
      (createInterface k ((w.emit Sys.openTun).opened fd) fd config.Name flags).2 fd config
    rw [hci] at h1
    split
    · exact ⟨r1, h1⟩
    · obtain ⟨r2, h2⟩ := setMTU_log_ext k (setDeviceOptions k
        (createInterface k ((w.emit Sys.openTun).opened fd) fd config.Name flags).2 fd config).2
        config.MTU name
      rw [h1] at h2
      split
      · exact ⟨r1 ++ r2 ++ [Sys.close fd], by
          simp only [World.close, h2, List.append_assoc]⟩
      · exact ⟨r1 ++ r2, by simp only [h2, List.append_assoc]⟩

/-- C2: the flag value `newTAP` passes to `createInterface` has the TAP bit set,
the TUN bit clear, the no-packet-info bit set, the multi-queue bit set exactly
when `MultiQueue` is true, and no other bit; the value `newTUN` passes is the
same with the roles of the TUN and TAP bits exchanged.  Both fit in 16 bits, and
each is the flag value of the set-interface request that the function issues
first once the device node is open. -/
theorem newTAP_newTUN_flag_bits (config : Config) :
    (newTAPFlags config &&& cIFFTAP = cIFFTAP
      ∧ newTAPFlags config &&& cIFFTUN = 0
      ∧ newTAPFlags config &&& cIFFNOPI = cIFFNOPI
      ∧ (newTAPFlags config &&& cIFFMULTIQUEUE = cIFFMULTIQUEUE
          ↔ config.PlatformSpecificParams.MultiQueue = true)
      ∧ (∀ i, (newTAPFlags config).testBit i = true → i = 1 ∨ i = 12 ∨ i = 8)
      ∧ newTAPFlags config < 65536
      ∧ ∀ (k : Kernel) (w : World) (fd : Nat), k.sysOpen = Sum.inr fd →
          ∃ rest, (newTAP k w config).2.log
            = w.log ++ [Sys.openTun, Sys.ioctl fd Req.TUNSETIFF
                (Arg.mem (createInterfaceReq config.Name (newTAPFlags config)).bytes)] ++ rest)
    ∧ (newTUNFlags config &&& cIFFTUN = cIFFTUN
      ∧ newTUNFlags config &&& cIFFTAP = 0
      ∧ newTUNFlags config &&& cIFFNOPI = cIFFNOPI
      ∧ (newTUNFlags config &&& cIFFMULTIQUEUE = cIFFMULTIQUEUE
          ↔ config.PlatformSpecificParams.MultiQueue = true)
      ∧ (∀ i, (newTUNFlags config).testBit i = true → i = 0 ∨ i = 12 ∨ i = 8)
      ∧ newTUNFlags config < 65536
      ∧ ∀ (k : Kernel) (w : World) (fd : Nat), k.sysOpen = Sum.inr fd →
          ∃ rest, (newTUN k w config).2.log
            = w.log ++ [Sys.openTun, Sys.ioctl fd Req.TUNSETIFF
                (Arg.mem (createInterfaceReq config.Name (newTUNFlags config)).bytes)] ++ rest) := by
  have hlogA : ∀ (k : Kernel) (w : World) (fd : Nat), k.sysOpen = Sum.inr fd →
      ∃ rest, (newTAP k w config).2.log
        = w.log ++ [Sys.openTun, Sys.ioctl fd Req.TUNSETIFF
            (Arg.mem (createInterfaceReq config.Name (newTAPFlags config)).bytes)] ++ rest :=
    fun k w fd ho => by rw [newTAP_eq_newDev]; exact newDev_log _ _ k w config fd ho
  have hlogU : ∀ (k : Kernel) (w : World) (fd : Nat), k.sysOpen = Sum.inr fd →
      ∃ rest, (newTUN k w config).2.log
        = w.log ++ [Sys.openTun, Sys.ioctl fd Req.TUNSETIFF
            (Arg.mem (createInterfaceReq config.Name (newTUNFlags config)).bytes)] ++ rest :=
    fun k w fd ho => by rw [newTUN_eq_newDev]; exact newDev_log _ _ k w config fd ho
  refine ⟨⟨?_, ?_, ?_, ?_, ?_, ?_, hlogA⟩, ⟨?_, ?_, ?_, ?_, ?_, ?_, hlogU⟩⟩
  all_goals first | rw [newTAPFlags_eq] | rw [newTUNFlags_eq]
  all_goals cases hq : config.PlatformSpecificParams.MultiQueue
  all_goals first
    | decide
    | (intro i h
       have hi := testBit_small (by decide) h
       interval_cases i <;> first | decide | exact absurd h (by decide))

/-- Witness for `newTAP_newTUN_flag_bits`: the default configuration on the
example kernel; the flag values are 0x1002 and 0x1001. -/
theorem newTAP_newTUN_flag_bits_witness :
    newTAPFlags defaultConfig = 0x1002 ∧ newTUNFlags defaultConfig = 0x1001
    ∧ (∃ rest, (newTAP (exampleKernel 1500 allowAll) startWorld defaultConfig).2.log
        = startWorld.log ++ [Sys.openTun, Sys.ioctl 3 Req.TUNSETIFF
            (Arg.mem (createInterfaceReq defaultConfig.Name (newTAPFlags defaultConfig)).bytes)]
          ++ rest)
    ∧ (∃ rest, (newTUN (exampleKernel 1500 allowAll) startWorld defaultConfig).2.log
        = startWorld.log ++ [Sys.openTun, Sys.ioctl 3 Req.TUNSETIFF
            (Arg.mem (createInterfaceReq defaultConfig.Name (newTUNFlags defaultConfig)).bytes)]
          ++ rest) :=
  ⟨by decide, by decide,
    (newTAP_newTUN_flag_bits defaultConfig).1.2.2.2.2.2.2 (exampleKernel 1500 allowAll)
      startWorld 3 rfl,
    (newTAP_newTUN_flag_bits defaultConfig).2.2.2.2.2.2.2 (exampleKernel 1500 allowAll)
      startWorld 3 rfl⟩

end Water
